import Mathlib

/-!
Shallow embedding of the `azure-monitor` demo service
(`src/app/main.py`, `src/app/telemetry.py`, `src/app/config.py`).

Each FastAPI handler is embedded as a pure Lean function.  Nondeterministic
inputs of the real handler (random draws from `random.uniform` /
`random.choice`, the wall clock read by `time.time()`, and the result of the
outbound `requests.get` call) are passed as explicit arguments.  A handler
returns the ordered list of telemetry side effects it performs (metric
updates, log records, sleeps, outbound HTTP calls) together with its HTTP
outcome.  FastAPI maps a normal return to status 200 and a raised
`HTTPException(status_code=s)` to status `s`; the embedding folds that rule
into `HOut.status`.
-/

namespace AzureMonitorDemo

/-- Log severity levels used by the handlers (`logging` module levels). -/
inductive LogLevel where
  | debug
  | info
  | warning
  | error
deriving DecidableEq

/-- One telemetry side effect performed by a handler, in program order:
a counter / up-down-counter `add`, a histogram `record`, a log record,
a `logger.exception` call, an outbound `requests.get`, a `time.sleep`,
or the opening of a tracer span. -/
inductive TEvent where
  | counterAdd (name : String) (value : ℤ) (attrs : List (String × String))
  | histRecord (name : String) (value : ℚ) (attrs : List (String × String))
  | log (level : LogLevel) (msg : String)
  | logException (msg : String)
  | httpGet (url : String) (timeoutSeconds : ℕ)
  | sleep (seconds : ℚ)
  | spanStart (name : String)
deriving DecidableEq

/-- Outcome of a handler body: a normal JSON return, or a raised
`HTTPException` with a status code and a detail string. -/
inductive HOut (α : Type) where
  | ok (body : α)
  | httpExc (statusCode : ℕ) (detail : String)
deriving DecidableEq

/-- The HTTP status FastAPI produces for a handler outcome: 200 for a
normal return, the exception's own status code for an `HTTPException`. -/
def HOut.status {α : Type} : HOut α → ℕ
  | .ok _ => 200
  | .httpExc s _ => s

/-- The `detail` field FastAPI serializes for a raised `HTTPException`
(empty for a normal return). -/
def HOut.excDetail {α : Type} : HOut α → String
  | .ok _ => ""
  | .httpExc _ d => d

/-- Total seconds slept by the recorded `time.sleep` calls: the code's
guaranteed lower bound on the wall-clock time of the request. -/
def sleptSeconds : List TEvent → ℚ
  | [] => 0
  | .sleep s :: rest => s + sleptSeconds rest
  | _ :: rest => sleptSeconds rest

/-- Number of `add` calls on the counter with the given metric name. -/
def countCounterAdds (name : String) : List TEvent → ℕ
  | [] => 0
  | .counterAdd n _ _ :: rest =>
      (if n = name then 1 else 0) + countCounterAdds name rest
  | _ :: rest => countCounterAdds name rest

/-- Number of outbound HTTP calls (`requests.get`) in the event list. -/
def countHttpGets : List TEvent → ℕ
  | [] => 0
  | .httpGet _ _ :: rest => countHttpGets rest + 1
  | _ :: rest => countHttpGets rest

/-- Whether the event list contains a `logger.exception` record. -/
def hasLogException : List TEvent → Bool
  | [] => false
  | .logException _ :: _ => true
  | _ :: rest => hasLogException rest

/-!  ## Decimal rounding (`round(x, 2)`)

Python's `round(x, 2)` rounds to the nearest multiple of 1/100, ties to
even (banker's rounding).  `rhe` is round-half-to-even to an integer over
ℚ; `round2 q = rhe (q * 100) / 100`. -/

/-- Round half to even: the integer nearest to `q`, ties going to the even
integer (the rounding mode of Python's builtin `round`). -/
def rhe (q : ℚ) : ℤ :=
  if q - ⌊q⌋ < 1/2 then ⌊q⌋
  else if 1/2 < q - ⌊q⌋ then ⌊q⌋ + 1
  else if ⌊q⌋ % 2 = 0 then ⌊q⌋ else ⌊q⌋ + 1

/-- `round(q, 2)`: round to the nearest multiple of 1/100, ties to even. -/
def round2 (q : ℚ) : ℚ := (rhe (q * 100) : ℚ) / 100

theorem rhe_ge_floor (q : ℚ) : ⌊q⌋ ≤ rhe q := by
  unfold rhe
  split_ifs <;> omega

theorem le_rhe_of_le {n : ℤ} {q : ℚ} (h : (n : ℚ) ≤ q) : n ≤ rhe q := by
  have hf : n ≤ ⌊q⌋ := by
    have := Int.floor_le_floor h
    simpa using this
  exact le_trans hf (rhe_ge_floor q)

theorem rhe_le_of_le {q : ℚ} {n : ℤ} (h : q ≤ (n : ℚ)) : rhe q ≤ n := by
  have hf : ⌊q⌋ ≤ n := by
    have := Int.floor_le_floor h
    simpa using this
  unfold rhe
  split_ifs with h1 h2 h3
  · exact hf
  all_goals {
    rcases lt_or_eq_of_le hf with hlt | heq
    · omega
    · exfalso
      have hq : q - ⌊q⌋ ≤ 0 := by
        have : q ≤ (⌊q⌋ : ℚ) := by rw [heq]; exact_mod_cast h
        linarith
      linarith }

theorem rhe_le_add_half (q : ℚ) : (rhe q : ℚ) ≤ q + 1/2 := by
  have hfl : (⌊q⌋ : ℚ) ≤ q := Int.floor_le q
  unfold rhe
  split_ifs with h1 h2 h3 <;> push_cast <;> linarith

theorem round2_le_of_le {q : ℚ} {n : ℤ} (h : q ≤ (n : ℚ) / 100) :
    round2 q ≤ (n : ℚ) / 100 := by
  have h100 : q * 100 ≤ (n : ℚ) := by linarith
  have := rhe_le_of_le h100
  have : (rhe (q * 100) : ℚ) ≤ (n : ℚ) := by exact_mod_cast this
  unfold round2
  linarith

theorem le_round2_of_le {n : ℤ} {q : ℚ} (h : (n : ℚ) / 100 ≤ q) :
    (n : ℚ) / 100 ≤ round2 q := by
  have h100 : (n : ℚ) ≤ q * 100 := by linarith
  have := le_rhe_of_le h100
  have : (n : ℚ) ≤ (rhe (q * 100) : ℚ) := by exact_mod_cast this
  unfold round2
  linarith

theorem round2_le_add (q : ℚ) : round2 q ≤ q + 1/200 := by
  have := rhe_le_add_half (q * 100)
  unfold round2
  linarith

/-!  ## Configuration (`src/app/config.py`)

`Settings` mirrors the pydantic `BaseSettings` class: each field with its
default value.  Environment-variable lookup itself is outside the embedding;
a `Settings` value stands for the loaded configuration object. -/

/-- The application settings object (`app.config.Settings`), with the
field defaults of `config.py`. -/
structure Settings where
  app_name : String := "azure-monitor-demo"
  app_version : String := "1.0.0"
  environment : String := "development"
  host : String := "0.0.0.0"
  port : ℕ := 8000
  applicationinsights_connection_string : Option String := none
  applicationid : Option String := none
  otel_service_name : String := "fastapi-otel-azure"
  log_level : String := "INFO"
deriving DecidableEq

/-- The module-level `settings = Settings()` instance with every
environment variable absent (all defaults). -/
def defaultSettings : Settings := {}

/-!  ## Telemetry bootstrap (`src/app/telemetry.py`)

The process-wide telemetry registry: the three global signal providers
(`none` = the SDK's default no-op provider, `some r` = an SDK provider
whose resource carries service name `r`), the registered exporters, the
root logger's handler count and level, and the installed instrumentations.
`setup_telemetry` is the state transformer the bootstrap performs on it. -/

/-- The global telemetry registry and root-logger state mutated by
`setup_telemetry`. -/
structure TelemetryRegistry where
  tracerProvider : Option String
  meterProvider : Option String
  loggerProvider : Option String
  exporters : List String
  rootHandlers : ℕ
  rootLevel : Option LogLevel
  instrumented : List String
  warnings : List String
deriving DecidableEq

/-- The registry at process start: SDK default (no-op) providers, no
exporters, untouched root logger, no instrumentation, no warnings. -/
def initialRegistry : TelemetryRegistry :=
  { tracerProvider := none, meterProvider := none, loggerProvider := none,
    exporters := [], rootHandlers := 0, rootLevel := none,
    instrumented := [], warnings := [] }

/-- Python truthiness test `not connection_string` on the
`str | None` setting: true for `None` and for the empty string. -/
def connStringAbsent : Option String → Bool
  | none => true
  | some c => c = ""

/-- The warning emitted when the connection string is absent. -/
def missingConnStringWarning : String :=
  "APPLICATIONINSIGHTS_CONNECTION_STRING is not set. " ++
  "Telemetry will not be sent to Azure Monitor."

/-- `setup_telemetry(app)` from `telemetry.py`, as a transformer of the
global registry.  If the connection string is falsy: one warning, return.
Otherwise: register the three Azure Monitor pipelines (trace / metric /
log provider, each with its exporter), attach the OTEL handler to the root
logger, raise the root level to INFO, and instrument FastAPI, requests and
logging. -/
def setup_telemetry (s : Settings) (st : TelemetryRegistry) : TelemetryRegistry :=
  let service_name :=
    if s.otel_service_name = "" then s.app_name else s.otel_service_name
  if connStringAbsent s.applicationinsights_connection_string then
    { st with warnings := st.warnings ++ [missingConnStringWarning] }
  else
    { tracerProvider := some service_name,
      meterProvider := some service_name,
      loggerProvider := some service_name,
      exporters := st.exporters ++
        ["AzureMonitorTraceExporter", "AzureMonitorMetricExporter",
         "AzureMonitorLogExporter"],
      rootHandlers := st.rootHandlers + 1,
      rootLevel := some .info,
      instrumented := st.instrumented ++ ["fastapi", "requests", "logging"],
      warnings := st.warnings }

/-!  ## HTTP handlers (`src/app/main.py`) -/

/-- Body of `GET /` (the `root` handler). -/
structure RootBody where
  message : String
  endpoints : List (String × String)
deriving DecidableEq

/-- `GET /`: info log, greeting plus endpoint index. -/
def root : List TEvent × HOut RootBody :=
  ([.log .info "Root endpoint accessed"],
   .ok { message := "Hello from FastAPI with OpenTelemetry & Azure Monitor!",
         endpoints :=
           [("health", "/health"), ("info_log", "/demo/info"),
            ("warning_log", "/demo/warning"), ("error_log", "/demo/error"),
            ("exception", "/demo/exception"), ("metrics", "/demo/metrics"),
            ("custom_trace", "/demo/trace"), ("dependency", "/demo/dependency"),
            ("slow_operation", "/demo/slow"), ("all_telemetry", "/demo/all")] })

/-- Body of `GET /health`. -/
structure HealthBody where
  status : String
  timestamp : ℚ
deriving DecidableEq

/-- `GET /health`: debug log, then `{status: "healthy", timestamp: time.time()}`.
`now` is the value `time.time()` returns at this call. -/
def health (now : ℚ) : List TEvent × HOut HealthBody :=
  ([.log .debug "Health check performed"],
   .ok { status := "healthy", timestamp := now })

/-- The `timestamp` field of a `/health` response. -/
def healthTimestamp (r : List TEvent × HOut HealthBody) : ℚ :=
  match r.2 with
  | .ok b => b.timestamp
  | .httpExc _ _ => 0

/-- Simple acknowledgment body `{message: ...}`. -/
structure MsgBody where
  message : String
deriving DecidableEq

/-- `GET /demo/info`: one INFO log, ack. -/
def demo_info_log : List TEvent × HOut MsgBody :=
  ([.log .info "This is an informational message"],
   .ok { message := "INFO log sent to Azure Monitor" })

/-- `GET /demo/warning`: one WARNING log, ack. -/
def demo_warning_log : List TEvent × HOut MsgBody :=
  ([.log .warning "This is a warning message - something unusual happened"],
   .ok { message := "WARNING log sent to Azure Monitor" })

/-- Body of `GET /demo/error`. -/
structure ErrorLogBody where
  message : String
  error_logged : Bool
deriving DecidableEq

/-- `GET /demo/error`: error-counter increment, one ERROR log, ack. -/
def demo_error_log : List TEvent × HOut ErrorLogBody :=
  ([.counterAdd "demo.errors.total" 1
      [("error_type", "logged_error"), ("endpoint", "/demo/error")],
    .log .error "This is an error message - operation failed"],
   .ok { message := "ERROR log sent to Azure Monitor", error_logged := true })

/-- `GET /demo/exception?error_type=...`.  The query parameter defaults to
`"runtime"` when omitted.  The error counter is incremented first; then
the branch raises: `runtime` → `RuntimeError`, `http` →
`HTTPException(503)`, `zero_division` → `ZeroDivisionError`, anything
else → `ValueError`.  The `except HTTPException` clause re-raises the 503;
the `except Exception` clause calls `logger.exception` and raises
`HTTPException(500, "Internal error: ...")`.  The handler never returns
normally. -/
def demo_exception (error_type : Option String) : List TEvent × HOut Unit :=
  let et := error_type.getD "runtime"
  let counterEv : TEvent :=
    .counterAdd "demo.errors.total" 1
      [("error_type", et), ("endpoint", "/demo/exception")]
  if et = "runtime" then
    ([counterEv, .logException "Exception occurred: RuntimeError"],
     .httpExc 500 "Internal error: This is a simulated runtime error for testing")
  else if et = "http" then
    ([counterEv], .httpExc 503 "Service temporarily unavailable")
  else if et = "zero_division" then
    ([counterEv, .logException "Exception occurred: ZeroDivisionError"],
     .httpExc 500 "Internal error: division by zero")
  else
    ([counterEv, .logException "Exception occurred: ValueError"],
     .httpExc 500 ("Internal error: Unknown error type: " ++ et))

/-- Body of `GET /demo/metrics` (the `metrics` sub-object of the JSON). -/
structure MetricsBody where
  message : String
  request_count : String
  processing_time_ms : ℚ
  active_users_change : ℤ
deriving DecidableEq

/-- The draw of `random.choice([-1, 1, 2])`, indexed by which element the
RNG picked. -/
def choiceUserChange (i : Fin 3) : ℤ := [-1, 1, 2].get i

/-- `GET /demo/metrics`.  `processing_time` is the draw of
`random.uniform(10, 500)` and `choiceIx` indexes the draw of
`random.choice([-1, 1, 2])`.  Counter +1, histogram record, up-down
counter add, info log; returns the values used, the processing time
rounded to 2 decimals. -/
def demo_metrics (processing_time : ℚ) (choiceIx : Fin 3) :
    List TEvent × HOut MetricsBody :=
  let user_change := choiceUserChange choiceIx
  ([.counterAdd "demo.requests.total" 1
      [("endpoint", "/demo/metrics"), ("method", "GET")],
    .histRecord "demo.processing.duration" processing_time
      [("operation", "demo_metrics")],
    .counterAdd "demo.active_users" user_change [("region", "us-east")],
    .log .info "Custom metrics recorded"],
   .ok { message := "Custom metrics sent to Azure Monitor",
         request_count := "+1",
         processing_time_ms := round2 processing_time,
         active_users_change := user_change })

/-- `GET /demo/trace`: parent span, 0.1 s sleep, child span, 0.05 s sleep,
info log, ack.  (Span attributes and span events are not part of the event
vocabulary; the random `data_size` only feeds a span attribute.) -/
def demo_custom_trace : List TEvent × HOut MsgBody :=
  ([.spanStart "custom_operation", .sleep (1/10),
    .spanStart "sub_operation", .sleep (1/20),
    .log .info "Custom trace with nested spans created"],
   .ok { message := "Custom trace with nested spans sent to Azure Monitor" })

/-- What the outbound `requests.get` produced when it returned: the
downstream status code and the decoded JSON payload (kept abstract as a
string). -/
structure DepResponse where
  status_code : ℕ
  jsonData : String
deriving DecidableEq

/-- Body of `GET /demo/dependency` on success. -/
structure DependencyBody where
  message : String
  external_api : String
  status_code : ℕ
  data : String
deriving DecidableEq

/-- `GET /demo/dependency`.  `callResult` is the outcome of the single
`requests.get("https://jsonplaceholder.typicode.com/posts/1", timeout=5)`:
`.ok` with the downstream response, or `.error` with the exception's
message (any exception, timeouts included).  On success: info log and a
200 body echoing the downstream status code and payload.  On failure:
error log and `HTTPException(502, "External service error: ...")`. -/
def demo_dependency_tracking (callResult : Except String DepResponse) :
    List TEvent × HOut DependencyBody :=
  let evs : List TEvent :=
    [.spanStart "external_api_call",
     .httpGet "https://jsonplaceholder.typicode.com/posts/1" 5]
  match callResult with
  | .ok response =>
      (evs ++ [.log .info "External API called successfully"],
       .ok { message := "Dependency tracking demonstrated",
             external_api := "jsonplaceholder.typicode.com",
             status_code := response.status_code,
             data := response.jsonData })
  | .error e =>
      (evs ++ [.log .error ("External API call failed: " ++ e)],
       .httpExc 502 ("External service error: " ++ e))

/-- Body of `GET /demo/slow`. -/
structure SlowBody where
  message : String
  duration_seconds : ℚ
  note : String
deriving DecidableEq

/-- `GET /demo/slow`.  `duration` is the draw of `random.uniform(1, 3)`.
Span, warning log, `time.sleep(duration)`, histogram record of
`duration * 1000` ms, info log; returns the duration rounded to
2 decimals. -/
def demo_slow_operation (duration : ℚ) : List TEvent × HOut SlowBody :=
  ([.spanStart "slow_operation",
    .log .warning "Starting slow operation",
    .sleep duration,
    .histRecord "demo.processing.duration" (duration * 1000)
      [("operation", "slow_operation")],
    .log .info "Slow operation completed"],
   .ok { message := "Slow operation completed",
         duration_seconds := round2 duration,
         note := "Check Azure Monitor for performance metrics" })

/-- The `duration_seconds` field of a `/demo/slow` response. -/
def slowDuration (r : List TEvent × HOut SlowBody) : ℚ :=
  match r.2 with
  | .ok b => b.duration_seconds
  | .httpExc _ _ => 0

/-- Body of `GET /demo/all`. -/
structure AllBody where
  message : String
  telemetry_generated : List String
  total_types : ℕ
  note : String
deriving DecidableEq

/-- `GET /demo/all`.  `depResult` is the outcome of the inner
`requests.get("https://jsonplaceholder.typicode.com/users/1", timeout=5)`:
`.ok` with the downstream status code, or `.error` with the exception's
message.  The handler performs, in order: info log, warning log, the three
metric updates, a nested span with a 0.1 s sleep, the outbound call (its
failure caught, logged, and recorded as a `✗` entry), an error log plus
error-counter increment, and a caught-and-logged `ValueError`.  It always
returns normally with the list of performed actions. -/
def demo_all_telemetry (depResult : Except String ℕ) :
    List TEvent × HOut AllBody :=
  let depEntry : String :=
    match depResult with
    | .ok code => "✓ Dependency tracking (status: " ++ toString code ++ ")"
    | .error _ => "✗ Dependency tracking (failed)"
  let depEvents : List TEvent :=
    match depResult with
    | .ok _ => []
    | .error e => [.log .error ("Dependency call failed: " ++ e)]
  let results : List String :=
    ["✓ INFO log", "✓ WARNING log",
     "✓ Custom metrics (counter, histogram, gauge)",
     "✓ Custom nested trace",
     depEntry,
     "✓ ERROR log",
     "✓ Exception (caught and logged)"]
  (([.spanStart "comprehensive_demo",
     .log .info "Comprehensive demo started",
     .log .warning "This is part of the comprehensive demo",
     .counterAdd "demo.requests.total" 1
       [("endpoint", "/demo/all"), ("demo", "comprehensive")],
     .histRecord "demo.processing.duration" 250
       [("operation", "comprehensive_demo")],
     .counterAdd "demo.active_users" 1 [("region", "demo")],
     .spanStart "demo_sub_operation",
     .sleep (1/10),
     .httpGet "https://jsonplaceholder.typicode.com/users/1" 5] ++
    depEvents ++
    [.log .error "Simulated error for demo purposes",
     .counterAdd "demo.errors.total" 1
       [("error_type", "simulated"), ("endpoint", "/demo/all")],
     .logException "Caught exception in comprehensive demo",
     .log .info "Comprehensive demo completed"]),
   .ok { message := "All telemetry types generated successfully!",
         telemetry_generated := results,
         total_types := results.length,
         note := "Check Azure Monitor Application Insights in 2-5 minutes" })

/-- The `telemetry_generated` list of a `/demo/all` response. -/
def allTelemetryList (r : List TEvent × HOut AllBody) : List String :=
  match r.2 with
  | .ok b => b.telemetry_generated
  | .httpExc _ _ => []

/-!  ## Global exception handler

Starlette requires an exception handler to return a `Response` object; the
returned object is invoked as an ASGI application to send the reply.  The
handler in `main.py` returns a plain dict, which is not a `Response`;
`HandlerReturn` distinguishes the two, and `sendHandlerReturn` models the
framework's sending step: a `Response` is sent as-is, while a plain dict
cannot be called as an ASGI application (a `TypeError`), so the server
falls back to its default plain-text 500 reply and the dict's JSON body is
never delivered. -/

/-- What an exception handler hands back to Starlette: a real `Response`
(status plus JSON body), or a bare Python dict. -/
inductive HandlerReturn where
  | jsonResponse (statusCode : ℕ) (body : List (String × String))
  | rawDict (body : List (String × String))
deriving DecidableEq

/-- Starlette sending the handler's return value: a `Response` yields its
own status and body; a bare dict is not callable as an ASGI application,
so the client gets the server's default plain-text 500 with no JSON body
(`none`). -/
def sendHandlerReturn : HandlerReturn → ℕ × Option (List (String × String))
  | .jsonResponse s b => (s, some b)
  | .rawDict _ => (500, none)

/-- `global_exception_handler(request, exc)` from `main.py`: logs the
unhandled exception (the request path and method go into the log record's
`extra` attributes), then returns the plain dict
`{"error": ..., "detail": str(exc), "path": ...}` — not a `Response`
object.  `path` is `request.url.path` and `excMsg` is `str(exc)`. -/
def global_exception_handler (path excMsg : String) :
    List TEvent × HandlerReturn :=
  ([.logException ("Unhandled exception on " ++ path)],
   .rawDict [("error", "Internal server error"), ("detail", excMsg),
             ("path", path)])

/-!  ## Claim theorems -/

/-- C1: `GET /demo/exception` returns 503 when `error_type` is `"http"`,
500 when it is `"runtime"` or `"zero_division"`, and 500 for any other
value, with the exception logged (a `logger.exception` record among the
emitted events) on every 500 path. -/
theorem C1_demo_exception_statuses :
    (demo_exception (some "http")).2.status = 503 ∧
    (demo_exception (some "runtime")).2.status = 500 ∧
    (demo_exception (some "zero_division")).2.status = 500 ∧
    ∀ et : String, et ≠ "http" →
      (demo_exception (some et)).2.status = 500 ∧
      hasLogException (demo_exception (some et)).1 = true := by
  refine ⟨rfl, rfl, rfl, ?_⟩
  intro et h
  simp only [demo_exception, Option.getD_some]
  split_ifs <;> exact ⟨rfl, rfl⟩

/-- Witness for C1 at the concrete unrecognized value `"weird"`. -/
theorem C1_demo_exception_statuses_witness :
    (demo_exception (some "weird")).2.status = 500 ∧
    hasLogException (demo_exception (some "weird")).1 = true :=
  C1_demo_exception_statuses.2.2.2 "weird" (by decide)

/-- C2: with an absent (None or empty) connection string,
`setup_telemetry` appends exactly one warning and changes nothing else in
the global telemetry registry — providers, exporters, root-logger handler
count and level, and instrumentations are all unchanged — and every
endpoint still produces its documented status code. -/
theorem C2_setup_telemetry_absent_connstring (s : Settings)
    (st : TelemetryRegistry)
    (h : connStringAbsent s.applicationinsights_connection_string = true) :
    (setup_telemetry s st).warnings =
      st.warnings ++ [missingConnStringWarning] ∧
    (setup_telemetry s st).tracerProvider = st.tracerProvider ∧
    (setup_telemetry s st).meterProvider = st.meterProvider ∧
    (setup_telemetry s st).loggerProvider = st.loggerProvider ∧
    (setup_telemetry s st).exporters = st.exporters ∧
    (setup_telemetry s st).rootHandlers = st.rootHandlers ∧
    (setup_telemetry s st).rootLevel = st.rootLevel ∧
    (setup_telemetry s st).instrumented = st.instrumented ∧
    root.2.status = 200 ∧
    (∀ t : ℚ, (health t).2.status = 200) ∧
    demo_info_log.2.status = 200 ∧
    demo_warning_log.2.status = 200 ∧
    demo_error_log.2.status = 200 ∧
    (demo_exception (some "http")).2.status = 503 ∧
    (demo_exception none).2.status = 500 ∧
    (∀ pt i, (demo_metrics pt i).2.status = 200) ∧
    demo_custom_trace.2.status = 200 ∧
    (∀ r, (demo_dependency_tracking (.ok r)).2.status = 200) ∧
    (∀ e, (demo_dependency_tracking (.error e)).2.status = 502) ∧
    (∀ d, (demo_slow_operation d).2.status = 200) ∧
    (∀ dep, (demo_all_telemetry dep).2.status = 200) := by
  have hset : setup_telemetry s st =
      { st with warnings := st.warnings ++ [missingConnStringWarning] } := by
    simp [setup_telemetry, h]
  refine ⟨?_, ?_, ?_, ?_, ?_, ?_, ?_, ?_, rfl, fun _ => rfl, rfl, rfl, rfl,
    rfl, rfl, fun _ _ => rfl, rfl, fun _ => rfl, fun _ => rfl, fun _ => rfl,
    fun dep => ?_⟩ <;>
    first
      | rw [hset]
      | rcases dep with e | c <;> rfl

/-- Witness for C2 with the default settings (connection string absent)
applied to the startup registry. -/
theorem C2_setup_telemetry_absent_connstring_witness :
    connStringAbsent defaultSettings.applicationinsights_connection_string
      = true ∧
    (setup_telemetry defaultSettings initialRegistry).warnings =
      initialRegistry.warnings ++ [missingConnStringWarning] :=
  ⟨rfl,
   (C2_setup_telemetry_absent_connstring defaultSettings initialRegistry
      rfl).1⟩

/-- C3: `GET /demo/all` always returns status 200 with a non-empty
`telemetry_generated` list, whether the outbound dependency call succeeds
or raises; on failure the error is logged and recorded as a `✗` list
entry instead of surfacing as an error response. -/
theorem C3_demo_all_always_ok (dep : Except String ℕ) :
    (demo_all_telemetry dep).2.status = 200 ∧
    allTelemetryList (demo_all_telemetry dep) ≠ [] ∧
    (∀ e, dep = .error e →
      TEvent.log .error ("Dependency call failed: " ++ e) ∈
        (demo_all_telemetry dep).1 ∧
      "✗ Dependency tracking (failed)" ∈
        allTelemetryList (demo_all_telemetry dep)) := by
  rcases dep with e | c
  · refine ⟨rfl, by simp [demo_all_telemetry, allTelemetryList], ?_⟩
    intro e' he
    injection he with he'
    subst he'
    constructor
    · simp [demo_all_telemetry]
    · simp [demo_all_telemetry, allTelemetryList]
  · exact ⟨rfl, by simp [demo_all_telemetry, allTelemetryList],
      fun e' he => by cases he⟩

/-- Witness for C3 at a concrete failing dependency call. -/
theorem C3_demo_all_always_ok_witness :
    (demo_all_telemetry (Except.error "timeout")).2.status = 200 ∧
    "✗ Dependency tracking (failed)" ∈
      allTelemetryList (demo_all_telemetry (Except.error "timeout")) :=
  ⟨(C3_demo_all_always_ok (Except.error "timeout")).1,
   ((C3_demo_all_always_ok (Except.error "timeout")).2.2 "timeout" rfl).2⟩

/-- The `processing_time_ms` field of a `/demo/metrics` response. -/
def metricsProcessingTime (r : List TEvent × HOut MetricsBody) : ℚ :=
  match r.2 with
  | .ok b => b.processing_time_ms
  | .httpExc _ _ => 0

/-- The `active_users_change` field of a `/demo/metrics` response. -/
def metricsUserChange (r : List TEvent × HOut MetricsBody) : ℤ :=
  match r.2 with
  | .ok b => b.active_users_change
  | .httpExc _ _ => 0

/-- C4: for any draws of `random.uniform(10, 500)` and
`random.choice([-1, 1, 2])`, the `/demo/metrics` response has
`processing_time_ms` in [10, 500] and `active_users_change` in
{-1, 1, 2}. -/
theorem C4_demo_metrics_ranges (pt : ℚ) (i : Fin 3)
    (h10 : 10 ≤ pt) (h500 : pt ≤ 500) :
    10 ≤ metricsProcessingTime (demo_metrics pt i) ∧
    metricsProcessingTime (demo_metrics pt i) ≤ 500 ∧
    metricsUserChange (demo_metrics pt i) ∈ ([-1, 1, 2] : List ℤ) := by
  have heq : metricsProcessingTime (demo_metrics pt i) = round2 pt := rfl
  have huc : metricsUserChange (demo_metrics pt i) = choiceUserChange i := rfl
  refine ⟨?_, ?_, ?_⟩
  · rw [heq]
    have := le_round2_of_le (n := 1000) (q := pt) (by push_cast; linarith)
    push_cast at this
    linarith
  · rw [heq]
    have := round2_le_of_le (n := 50000) (q := pt) (by push_cast; linarith)
    push_cast at this
    linarith
  · rw [huc]
    fin_cases i <;> decide

/-- Witness for C4 at the concrete draws 42 ms and index 0. -/
theorem C4_demo_metrics_ranges_witness :
    10 ≤ metricsProcessingTime (demo_metrics 42 0) ∧
    metricsProcessingTime (demo_metrics 42 0) ≤ 500 ∧
    metricsUserChange (demo_metrics 42 0) ∈ ([-1, 1, 2] : List ℤ) :=
  C4_demo_metrics_ranges 42 0 (by decide) (by decide)

/-- C5 counterexample: at the possible draw `duration = 1.006` (inside
[1, 3]), the handler sleeps 1.006 s but returns
`duration_seconds = round(1.006, 2) = 1.01`, so the code's guaranteed
wall-clock lower bound (the slept time) is strictly below the returned
duration — "wall-clock time ≥ returned duration" is not ensured by the
code. -/
theorem C5_wall_clock_counterexample :
    ((1 : ℚ) ≤ 503/500 ∧ (503/500 : ℚ) ≤ 3) ∧
    slowDuration (demo_slow_operation (503/500)) = 101/100 ∧
    sleptSeconds (demo_slow_operation (503/500)).1 = 503/500 ∧
    sleptSeconds (demo_slow_operation (503/500)).1 <
      slowDuration (demo_slow_operation (503/500)) := by
  have hfloor : ⌊(503/500 * 100 : ℚ)⌋ = 100 := by
    norm_num [Int.floor_eq_iff]
  have hr : round2 (503/500) = 101/100 := by
    unfold round2 rhe
    rw [hfloor]
    norm_num
  have hd : slowDuration (demo_slow_operation (503/500)) =
      round2 (503/500) := rfl
  have hs : sleptSeconds (demo_slow_operation (503/500)).1 = 503/500 := by
    simp [demo_slow_operation, sleptSeconds]
  refine ⟨⟨by norm_num, by norm_num⟩, by rw [hd, hr], hs, ?_⟩
  rw [hd, hr, hs]
  norm_num

/-- C5 (amended): for any draw of `random.uniform(1, 3)`, the returned
`duration_seconds` lies in [1, 3], the handler sleeps exactly the chosen
(un-rounded) duration, and that slept time is ≥ the returned duration
minus 0.005 (decimal rounding can exceed the slept time by at most half a
hundredth). -/
theorem C5_slow_duration_amended (d : ℚ) (h1 : 1 ≤ d) (h3 : d ≤ 3) :
    1 ≤ slowDuration (demo_slow_operation d) ∧
    slowDuration (demo_slow_operation d) ≤ 3 ∧
    sleptSeconds (demo_slow_operation d).1 = d ∧
    slowDuration (demo_slow_operation d) - 1/200 ≤
      sleptSeconds (demo_slow_operation d).1 := by
  have heq : slowDuration (demo_slow_operation d) = round2 d := rfl
  have hs : sleptSeconds (demo_slow_operation d).1 = d := by
    simp [demo_slow_operation, sleptSeconds]
  refine ⟨?_, ?_, hs, ?_⟩
  · rw [heq]
    have := le_round2_of_le (n := 100) (q := d) (by push_cast; linarith)
    push_cast at this
    linarith
  · rw [heq]
    have := round2_le_of_le (n := 300) (q := d) (by push_cast; linarith)
    push_cast at this
    linarith
  · rw [heq, hs]
    have := round2_le_add d
    linarith

/-- Witness for the amended C5 at the concrete draw 2 s. -/
theorem C5_slow_duration_amended_witness :
    1 ≤ slowDuration (demo_slow_operation 2) ∧
    slowDuration (demo_slow_operation 2) ≤ 3 ∧
    sleptSeconds (demo_slow_operation 2).1 = 2 ∧
    slowDuration (demo_slow_operation 2) - 1/200 ≤
      sleptSeconds (demo_slow_operation 2).1 :=
  C5_slow_duration_amended 2 (by decide) (by decide)

/-- C6: `GET /demo/dependency` returns 502 with detail
`"External service error: ..."` whenever the single outbound call raises,
and 200 echoing the downstream status code and payload when it returns;
exactly one outbound HTTP call (to the fixed URL, timeout 5 s) is made in
either case — no retry. -/
theorem C6_demo_dependency (callResult : Except String DepResponse) :
    ((demo_dependency_tracking callResult).2 =
      match callResult with
      | .ok r => HOut.ok
          { message := "Dependency tracking demonstrated",
            external_api := "jsonplaceholder.typicode.com",
            status_code := r.status_code, data := r.jsonData }
      | .error e => HOut.httpExc 502 ("External service error: " ++ e)) ∧
    ((demo_dependency_tracking callResult).2.status =
      match callResult with
      | .ok _ => 200
      | .error _ => 502) ∧
    countHttpGets (demo_dependency_tracking callResult).1 = 1 ∧
    TEvent.httpGet "https://jsonplaceholder.typicode.com/posts/1" 5 ∈
      (demo_dependency_tracking callResult).1 := by
  rcases callResult with e | r <;>
    exact ⟨rfl, rfl, rfl, by simp [demo_dependency_tracking]⟩

/-- C7: the code evaluated at a failing input.  On an unhandled exception
(path `"/demo/metrics"`, message `"boom"`), `global_exception_handler`
does log the exception, but hands Starlette a plain dict instead of a
`Response` object; the framework cannot send it, so the client receives
the server's default plain-text 500 and the `error`/`detail`/`path` JSON
body is never delivered — contradicting the documented intent. -/
theorem C7_global_handler_returns_raw_dict :
    global_exception_handler "/demo/metrics" "boom" =
      ([TEvent.logException "Unhandled exception on /demo/metrics"],
       HandlerReturn.rawDict
         [("error", "Internal server error"), ("detail", "boom"),
          ("path", "/demo/metrics")]) ∧
    sendHandlerReturn (global_exception_handler "/demo/metrics" "boom").2 =
      (500, none) :=
  ⟨rfl, rfl⟩

/-- C8 counterexample: two successive `/health` calls can observe the same
`time.time()` reading (the handler returns the clock value unchanged), in
which case the later timestamp is not strictly greater than the earlier
one. -/
theorem C8_timestamp_not_strictly_increasing :
    (health 5).2 = HOut.ok { status := "healthy", timestamp := 5 } ∧
    ¬ healthTimestamp (health 5) < healthTimestamp (health 5) :=
  ⟨rfl, lt_irrefl _⟩

/-- C8 (amended): every `/health` call returns status 200 with body status
`"healthy"` and a timestamp equal to the clock reading at the call; across
successive calls the timestamp is non-decreasing whenever the clock is,
but strict increase is not guaranteed. -/
theorem C8_health_amended (t t2 : ℚ) (h : t ≤ t2) :
    (health t).2.status = 200 ∧
    (health t).2 = HOut.ok { status := "healthy", timestamp := t } ∧
    healthTimestamp (health t) = t ∧
    healthTimestamp (health t) ≤ healthTimestamp (health t2) :=
  ⟨rfl, rfl, rfl, h⟩

/-- Witness for the amended C8 at clock readings 1 and 2. -/
theorem C8_health_amended_witness :
    (health 1).2.status = 200 ∧
    (health 1).2 = HOut.ok { status := "healthy", timestamp := 1 } ∧
    healthTimestamp (health 1) = 1 ∧
    healthTimestamp (health 1) ≤ healthTimestamp (health 2) :=
  C8_health_amended 1 2 (by decide)

/-- C9: every `/demo/exception` call emits the error-counter increment
(value 1, tagged with the effective `error_type` and the endpoint) as its
very first side effect — before any exception is raised — and emits it
exactly once, for every `error_type` including `"http"` and unrecognized
values. -/
theorem C9_error_counter_incremented_first (error_type : Option String) :
    (demo_exception error_type).1.head? =
      some (TEvent.counterAdd "demo.errors.total" 1
        [("error_type", error_type.getD "runtime"),
         ("endpoint", "/demo/exception")]) ∧
    countCounterAdds "demo.errors.total" (demo_exception error_type).1 = 1 := by
  simp only [demo_exception]
  split_ifs <;> simp [countCounterAdds]

/-- C10: omitting the `error_type` query parameter is exactly
`error_type="runtime"`: same events and outcome, a logged runtime fault,
and status 500 with the runtime error detail. -/
theorem C10_default_error_type_is_runtime :
    demo_exception none = demo_exception (some "runtime") ∧
    (demo_exception none).2.status = 500 ∧
    hasLogException (demo_exception none).1 = true ∧
    (demo_exception none).2.excDetail =
      "Internal error: This is a simulated runtime error for testing" :=
  ⟨rfl, rfl, rfl, rfl⟩

end AzureMonitorDemo
